import Mathlib

/-!
Verification development for the fetch orchestration engine
(`src/index.js`) and the response value (`src/response.js`).

The response handler (`req.on("response", ...)`, index.js lines 139-321)
is embedded as a pure function `handleResponse` from the request
descriptor and the received status/headers to an `Outcome`: a promise
rejection, a follow-up dispatch descriptor, or a delivered terminal
response together with the selected decoding transform.

External collaborators that live outside `src/` (the header container,
the request-descriptor builder, the body helpers, Node's URL resolver
and status-code table) are modelled from the spec; each such definition
carries a doc comment saying so.
-/

/-- ASCII lowering of one character, on code points (A-Z map to a-z). -/
def lowerNat (c : Char) : Nat :=
  if 65 ≤ c.toNat ∧ c.toNat ≤ 90 then c.toNat + 32 else c.toNat

/-- Case-insensitive canonical form of a header name. -/
def lowerKey (s : String) : List Nat :=
  s.data.map lowerNat

/-- Joins header values with the comma-space separator `get` uses. -/
def joinComma (vs : List String) : String :=
  String.mk (List.intercalate [',', ' '] (vs.map String.data))

/-- Modelled from the spec: the header-container collaborator
(`headers.js`, not under `src/`) — an ordered multi-value string map
with case-insensitive keys. -/
structure Headers where
  entries : List (String × String)
deriving DecidableEq

namespace Headers

/-- Case-insensitive key comparison used by every header operation. -/
def keyMatches (n : String) (e : String × String) : Bool :=
  lowerKey e.1 == lowerKey n

/-- Modelled from the spec: `get` joins every value stored under the
(case-insensitively matched) name with a comma-space separator, or
returns none when the name is absent. -/
def get (h : Headers) (n : String) : Option String :=
  match (h.entries.filter (keyMatches n)).map Prod.snd with
  | [] => none
  | v :: vs => some (joinComma (v :: vs))

/-- Modelled from the spec: membership test, case-insensitive. -/
def has (h : Headers) (n : String) : Bool :=
  h.entries.any (keyMatches n)

/-- Modelled from the spec: `set` replaces every entry stored under the
name with the single new pair. -/
def set (h : Headers) (n v : String) : Headers :=
  ⟨h.entries.filter (fun e => !(keyMatches n e)) ++ [(n, v)]⟩

/-- Modelled from the spec: removes every entry stored under the name. -/
def delete (h : Headers) (n : String) : Headers :=
  ⟨h.entries.filter (fun e => !(keyMatches n e))⟩

/-- Modelled from the spec: appends one pair, keeping earlier values. -/
def append (h : Headers) (n v : String) : Headers :=
  ⟨h.entries ++ [(n, v)]⟩

end Headers

/-- Redirect mode of a request descriptor (spec section 6). -/
inductive RedirectMode
  | follow
  | error
  | manual
deriving DecidableEq

/-- Modelled from the spec: the body-source classification of the
request-descriptor builder — absent bodies are `none`, fixed-length
sources carry their bytes, unbounded streams are non-replayable. -/
inductive BodySource
  | buffer (bytes : List Nat)
  | stream
deriving DecidableEq

/-- The request descriptor consumed by the orchestrator (the fields of
`Request` that `index.js` reads). -/
structure Request where
  url : String
  method : String
  headers : Headers
  body : Option BodySource
  redirect : RedirectMode
  follow : Nat
  counter : Nat
  compress : Bool
  timeout : Nat
  size : Nat
  signal : Bool
  agent : Option String
deriving DecidableEq

/-- Modelled from the spec: `getTotalBytes` of the body collaborator —
the total byte count is known for fixed-length sources (0 when no body
is present) and unknown (`none`) for unbounded streams. -/
def getTotalBytes (req : Request) : Option Nat :=
  match req.body with
  | none => some 0
  | some (.buffer bs) => some bs.length
  | some .stream => none

/-- Status line and headers of one received transport response
(`res.statusCode`, `res.statusMessage`, `createHeadersLenient(res.headers)`). -/
structure NodeRes where
  statusCode : Nat
  statusMessage : Option String
  headers : Headers
deriving DecidableEq

/-- `fetch.isRedirect` (index.js line 333): true exactly on the five
redirect status codes. -/
def isRedirect (code : Nat) : Bool :=
  code == 301 || code == 302 || code == 303 || code == 307 || code == 308

/-- Splits a character list at every occurrence of one character. -/
def splitChar (sep : Char) : List Char → List (List Char)
  | [] => [[]]
  | c :: cs =>
    if c = sep then [] :: splitChar sep cs
    else
      match splitChar sep cs with
      | [] => [[c]]
      | g :: gs => (c :: g) :: gs

/-- Breaks a character list at the first occurrence of a separator
sequence, returning the part before it and the part after it. -/
def breakOnSep (sep : List Char) : List Char → Option (List Char × List Char)
  | [] => none
  | c :: cs =>
    if sep.isPrefixOf (c :: cs) then some ([], (c :: cs).drop sep.length)
    else
      match breakOnSep sep cs with
      | none => none
      | some (pre, post) => some (c :: pre, post)

/-- The scheme separator of an absolute URL. -/
def schemeSep : List Char := [':', '/', '/']

/-- Modelled from the spec: Node's `Url.resolve` collaborator — absolute
resolution of a (possibly relative) Location value against the current
request URL.  A value that already carries a scheme separator is
returned unchanged; a path-absolute value replaces the base's whole
path; anything else replaces the last segment of the base's path. -/
def resolveUrl (base loc : String) : String :=
  if (breakOnSep schemeSep loc.data).isSome then loc
  else
    match breakOnSep schemeSep base.data with
    | some (scheme, rest) =>
      let pathParts := splitChar '/' rest
      let host := pathParts.headD rest
      let origin := scheme ++ schemeSep ++ host
      match loc.data with
      | '/' :: _ => String.mk (origin ++ loc.data)
      | l =>
        if pathParts.length ≤ 1 then String.mk (origin ++ '/' :: l)
        else
          String.mk
            (scheme ++ schemeSep ++ List.intercalate ['/'] pathParts.dropLast ++ '/' :: l)
    | none => loc

/-- Modelled from the spec: header-value well-formedness of the header
container — a value is storable when every character is the tab, a
printable ASCII character, or an extended byte; `set` on anything else
throws, which the manual branch surfaces as its own error. -/
def validHeaderValue (v : String) : Bool :=
  v.data.all fun c =>
    decide (c.toNat = 9 ∨ (0x20 ≤ c.toNat ∧ c.toNat ≤ 0x7e) ∨ (0x80 ≤ c.toNat ∧ c.toNat ≤ 0xff))

/-- The error kinds the orchestrator can reject with, named after the
`FetchError` type strings of the source. -/
inductive FetchErrKind
  | noRedirect
  | maxRedirect
  | unsupportedRedirect
  | headerCorruption
  | requestTimeout
deriving DecidableEq

/-- The decompression transform selected by the decoding pipeline.
`deflatePending` records that the deflate choice is deferred to the
first body chunk (index.js lines 301-316). -/
inductive Decoding
  | identity
  | gunzip
  | deflatePending
  | inflate
  | inflateRaw
deriving DecidableEq

/-- The follow-up descriptor record built at index.js lines 196-205;
exactly the fields the source copies (`timeout` and `size` are absent). -/
structure FollowOpts where
  headers : Headers
  follow : Nat
  counter : Nat
  agent : Option String
  compress : Bool
  method : String
  body : Option BodySource
  signal : Bool
deriving DecidableEq

/-- The metadata of a delivered terminal response: the fields of
`response_options` (index.js lines 246-253) the Response reads, plus
the decoding transform wired onto the body. -/
structure Delivered where
  url : String
  status : Nat
  statusText : Option String
  headers : Headers
  decoding : Decoding
deriving DecidableEq

/-- How one response event settles the dispatch: rejection, a recursive
follow-up dispatch, or delivery of a terminal response. -/
inductive Outcome
  | reject (kind : FetchErrKind)
  | followUp (locationURL : String) (opts : FollowOpts)
  | deliver (d : Delivered)
deriving DecidableEq

/-- The decoding pipeline (index.js lines 262-320): identity when
compression support is ignored (lines 270-276), gunzip for gzip
codings, a deferred first-chunk decision for deflate codings, and
identity again for any unrecognized coding (lines 318-320). -/
def selectDecoding (compress : Bool) (method : String) (statusCode : Nat)
    (codings : Option String) : Decoding :=
  if compress = false ∨ method = "HEAD" ∨ codings = none ∨ statusCode = 204 ∨ statusCode = 304 then
    .identity
  else
    match codings with
    | some c =>
      if c = "gzip" ∨ c = "x-gzip" then .gunzip
      else if c = "deflate" ∨ c = "x-deflate" then .deflatePending
      else .identity
    | none => .identity

/-- The once-per-response deflate choice taken from the first body chunk
(index.js lines 305-311): a first byte whose low nibble is 0x08 selects
zlib inflate, anything else raw inflate.  An empty chunk behaves like
the JS expression `(undefined & 0x0f) === 0x08`, which is false. -/
def deflateDecision (firstChunk : List Nat) : Decoding :=
  match firstChunk with
  | b :: _ => if b &&& 0x0f = 0x08 then .inflate else .inflateRaw
  | [] => .inflateRaw

/-- Terminal (non-redirected) delivery: the Response is assembled from
the request URL, the received status line and the (possibly rewritten)
headers, with the decoding pipeline run on the Content-Encoding those
headers carry (index.js lines 244-320). -/
def deliverTerminal (request : Request) (res : NodeRes) (hdrs : Headers) : Outcome :=
  .deliver
    { url := request.url
      status := res.statusCode
      statusText := res.statusMessage
      headers := hdrs
      decoding := selectDecoding request.compress request.method res.statusCode
        (hdrs.get "Content-Encoding") }

/-- The response handler of `fetch` (index.js lines 139-321), as the
function from the current request descriptor and the received response
to how the dispatch settles.  The manual branch whose `headers.set`
throws rejects with that error (index.js lines 167-173): the promise is
already settled by the rejection, so the value later passed to
`resolve` is never delivered. -/
def handleResponse (request : Request) (res : NodeRes) : Outcome :=
  if isRedirect res.statusCode then
    let location := res.headers.get "Location"
    let locationURL := location.map (resolveUrl request.url)
    match request.redirect with
    | .error => .reject .noRedirect
    | .manual =>
      match locationURL with
      | some u =>
        if validHeaderValue u then
          deliverTerminal request res (res.headers.set "Location" u)
        else
          .reject .headerCorruption
      | none => deliverTerminal request res res.headers
    | .follow =>
      match locationURL with
      | none => deliverTerminal request res res.headers
      | some u =>
        if request.follow ≤ request.counter then
          .reject .maxRedirect
        else
          let requestOpts : FollowOpts :=
            { headers := ⟨request.headers.entries⟩
              follow := request.follow
              counter := request.counter + 1
              agent := request.agent
              compress := request.compress
              method := request.method
              body := request.body
              signal := request.signal }
          let totalBytes := getTotalBytes request
          if res.statusCode ≠ 303 ∧ request.body.isSome = true ∧ totalBytes = none then
            .reject .unsupportedRedirect
          else
            let requestOpts :=
              if res.statusCode = 303 ∨
                  ((res.statusCode = 301 ∨ res.statusCode = 302) ∧ request.method = "POST") then
                { requestOpts with
                    method := "GET"
                    body := none
                    headers := requestOpts.headers.delete "content-length" }
              else requestOpts
            .followUp u requestOpts
  else deliverTerminal request res res.headers

/-- Modelled from the spec: the request-descriptor builder applied to
`new Request(locationURL, requestOpts)` — fields present in the opts
record are copied; absent fields take the builder defaults, redirect
mode follow, timeout 0 (0 = disabled) and size 0. -/
def requestOfFollow (u : String) (o : FollowOpts) : Request :=
  { url := u
    method := o.method
    headers := o.headers
    body := o.body
    redirect := .follow
    follow := o.follow
    counter := o.counter
    compress := o.compress
    timeout := 0
    size := 0
    signal := o.signal
    agent := o.agent }

/-- Runs a redirect chain: each response is handled with the current
descriptor; a follow-up outcome re-dispatches with the rebuilt request
against the remaining responses.  `none` means the chain of responses
ran out while still following. -/
def runChain (request : Request) : List NodeRes → Option Outcome
  | [] => none
  | r :: rs =>
    match handleResponse request r with
    | .followUp u opts => runChain (requestOfFollow u opts) rs
    | o => some o

/-- A timings snapshot: the duration fields recorded so far, as a record
of named measurements (index.js line 55, mutated by the socket and
stream observers). -/
abbrev Timings := List (String × String)

/-- The state the `abort` callback (index.js lines 67-76) observes when
the cancellation signal fires: whether the returned promise is still
pending, whether the request body is a readable stream, which timings
were recorded, and whether a response object carrying a body stream was
already handed out (`response` is assigned in the same synchronous step
as the `resolve` call that delivers it). -/
structure AbortState where
  pending : Bool
  requestBodyStream : Bool
  responseBodySet : Bool
  timings : Timings
deriving DecidableEq

/-- The externally visible effects of one run of the `abort` callback. -/
inductive AbortAction
  | settleAbortError (t : Timings)
  | destroyRequestBody
  | emitStreamError (t : Timings)
deriving DecidableEq

/-- The `abort` callback (index.js lines 67-76): it rejects the promise
with an AbortError carrying the timings snapshot — which settles the
future only when it is still pending, by promise semantics — destroys a
readable request body, and, when a response with a body was recorded,
emits the same error on that live stream. -/
def abortRun (s : AbortState) : List AbortAction :=
  (if s.pending then [.settleAbortError s.timings] else []) ++
  (if s.requestBodyStream then [.destroyRequestBody] else []) ++
  (if s.responseBodySet then [.emitStreamError s.timings] else [])

/-- The events one hop's timeout timer reacts to: the socket being
assigned (index.js line 102, where the timer is armed when
`request.timeout` is nonzero, lines 115-125), response headers arriving
(line 140, `clearTimeout`), and the armed timer firing (lines 116-124,
rejecting with the `request-timeout` FetchError). -/
inductive HopEvent
  | socketAssigned
  | responseHeaders
  | timerFire
deriving DecidableEq

/-- The timer state of one hop: whether the timer is armed and whether
it has fired and rejected with TimeoutError. -/
structure TimerState where
  armed : Bool
  timedOut : Bool
deriving DecidableEq

/-- One step of the per-hop timeout timer (index.js lines 102-126 and
line 140): arming on socket assignment iff the descriptor's timeout is
nonzero, clearing on response headers, and timing out only when armed. -/
def timerStep (timeout : Nat) (s : TimerState) : HopEvent → TimerState
  | .socketAssigned => if timeout ≠ 0 then { s with armed := true } else s
  | .responseHeaders => { s with armed := false }
  | .timerFire => if s.armed then { armed := false, timedOut := true } else s

/-- Runs the per-hop timer over an event sequence, starting unarmed. -/
def runTimer (timeout : Nat) (evts : List HopEvent) : TimerState :=
  evts.foldl (timerStep timeout) { armed := false, timedOut := false }

/-- Modelled from the spec: the body collaborator's classification of a
body value (`body.js`, not under `src/`); `extractContentType` reads
the classified MIME type of the source. -/
structure BodyVal where
  contentType : Option String
deriving DecidableEq

/-- Modelled from the spec: `extractContentType` of the body helpers. -/
def extractContentType (b : BodyVal) : Option String :=
  b.contentType

/-- Modelled from the spec: `clone` of the body helpers — returns a body
with identical content (streams are teed, buffers shared). -/
def cloneBody (b : Option BodyVal) : Option BodyVal :=
  b

/-- Modelled from the spec: Node's `http.STATUS_CODES` reason-phrase
table (external collaborator); a representative fragment. -/
def STATUS_CODES (s : Nat) : Option String :=
  if s = 200 then some "OK"
  else if s = 204 then some "No Content"
  else if s = 301 then some "Moved Permanently"
  else if s = 302 then some "Found"
  else if s = 303 then some "See Other"
  else if s = 304 then some "Not Modified"
  else if s = 307 then some "Temporary Redirect"
  else if s = 308 then some "Permanent Redirect"
  else if s = 404 then some "Not Found"
  else if s = 500 then some "Internal Server Error"
  else none

/-- The options record a Response is constructed from (`opts` of
response.js line 25).  `ok` is passed by `clone` (response.js line 90)
and ignored by the constructor. -/
structure RespOpts where
  url : Option String := none
  status : Option Nat := none
  statusText : Option String := none
  headers : Headers := ⟨[]⟩
  remoteAddress : Option String := none
  ok : Option Bool := none
deriving DecidableEq

/-- The Response value (response.js lines 24-93): the internals record
plus the body the constructor received. -/
structure Response where
  url : Option String
  status : Nat
  statusText : Option String
  headers : Headers
  timings : Timings
  remoteAddress : Option String
  body : Option BodyVal
deriving DecidableEq

/-- `opts.status || 200` of response.js line 28: a missing or falsy
(zero) status becomes 200. -/
def respStatus (opts : RespOpts) : Nat :=
  match opts.status with
  | some s => if s = 0 then 200 else s
  | none => 200

/-- `opts.statusText || STATUS_CODES[status]` of response.js line 41: a
missing or falsy (empty) status text falls back to the reason-phrase
table. -/
def respText (opts : RespOpts) (status : Nat) : Option String :=
  match opts.statusText with
  | some s => if s = "" then STATUS_CODES status else some s
  | none => STATUS_CODES status

/-- Response.js lines 29-36: the headers are copied, and gain a
Content-Type entry extracted from a non-null body when none is
present. -/
def respHeaders (body : Option BodyVal) (opts : RespOpts) : Headers :=
  match body with
  | some b =>
    if (Headers.mk opts.headers.entries).has "Content-Type" = false then
      match extractContentType b with
      | some ct => (Headers.mk opts.headers.entries).append "Content-Type" ct
      | none => Headers.mk opts.headers.entries
    else Headers.mk opts.headers.entries
  | none => Headers.mk opts.headers.entries

/-- The Response constructor (response.js lines 25-46): status defaults
to 200 on a missing or falsy value, the headers are copied and gain a
Content-Type entry extracted from a non-null body when none is present,
the status text falls back to the STATUS_CODES table on a missing or
falsy value, and the timings record is the third constructor argument
(defaulting to the empty record). -/
def Response.make (body : Option BodyVal) (opts : RespOpts) (timings : Timings) : Response :=
  { url := opts.url
    status := respStatus opts
    statusText := respText opts (respStatus opts)
    headers := respHeaders body opts
    timings := timings
    remoteAddress := opts.remoteAddress
    body := body }

/-- `Response.ok` (response.js lines 67-69). -/
def Response.isOk (r : Response) : Bool :=
  decide (200 ≤ r.status ∧ r.status < 300)

/-- `Response.clone` (response.js lines 84-92): rebuilds a Response from
the cloned body and the original's url, status, status text, headers
and ok flag — passing neither the timings nor the remote address, which
therefore take the constructor defaults. -/
def Response.clone (r : Response) : Response :=
  Response.make (cloneBody r.body)
    { url := r.url
      status := some r.status
      statusText := r.statusText
      headers := r.headers
      ok := some r.isOk }
    []

/-- The request descriptor of one hop of the redirect chain scenario: a
GET with no body in follow mode, redirect counter `c`, hop bound `m`. -/
def chainReq (u : String) (c m : Nat) : Request :=
  { url := u, method := "GET", headers := ⟨[]⟩, body := none, redirect := .follow,
    follow := m, counter := c, compress := true, timeout := 0, size := 0,
    signal := false, agent := none }

/-- A 302 response carrying a Location header. -/
def redirRes (loc : String) : NodeRes :=
  { statusCode := 302, statusMessage := some "Found", headers := ⟨[("Location", loc)]⟩ }

/-- A plain terminal 200 response. -/
def okRes : NodeRes :=
  { statusCode := 200, statusMessage := some "OK", headers := ⟨[]⟩ }

/-- The delivery produced by `okRes` at effective URL `u`. -/
def okDelivered (u : String) : Delivered :=
  { url := u, status := 200, statusText := some "OK", headers := ⟨[]⟩, decoding := .identity }

/-- A follow-mode request carrying a positive timeout. -/
def reqT : Request :=
  { url := "http://h/a", method := "GET", headers := ⟨[]⟩, body := none,
    redirect := .follow, follow := 20, counter := 0, compress := true,
    timeout := 1000, size := 0, signal := false, agent := none }

/-- A 302 response redirecting `reqT` to an absolute URL. -/
def resT : NodeRes :=
  { statusCode := 302, statusMessage := some "Found",
    headers := ⟨[("Location", "http://h/b")]⟩ }

/-- The follow-up opts record the handler builds for `reqT` and `resT`. -/
def followT : FollowOpts :=
  { headers := ⟨[]⟩, follow := 20, counter := 1, agent := none, compress := true,
    method := "GET", body := none, signal := false }

/-- A POST with a replayable three-byte body and a Content-Length header. -/
def reqPost : Request :=
  { url := "http://h/a", method := "POST", headers := ⟨[("Content-Length", "3")]⟩,
    body := some (.buffer [1, 2, 3]), redirect := .follow, follow := 20, counter := 0,
    compress := true, timeout := 0, size := 0, signal := false, agent := none }

/-- A 301 response redirecting to an absolute URL. -/
def resMoved : NodeRes :=
  { statusCode := 301, statusMessage := some "Moved Permanently",
    headers := ⟨[("Location", "http://h/b")]⟩ }

/-- A manual-mode GET at base URL `http://h/a`. -/
def reqMan : Request :=
  { url := "http://h/a", method := "GET", headers := ⟨[]⟩, body := none,
    redirect := .manual, follow := 20, counter := 0, compress := true,
    timeout := 0, size := 0, signal := false, agent := none }

/-- A 302 response with the relative Location `/x`. -/
def resMan : NodeRes :=
  { statusCode := 302, statusMessage := some "Found", headers := ⟨[("Location", "/x")]⟩ }

/-- A follow-mode POST whose body is a non-replayable stream. -/
def reqStream : Request :=
  { url := "http://h/a", method := "POST", headers := ⟨[]⟩, body := some .stream,
    redirect := .follow, follow := 20, counter := 0, compress := true,
    timeout := 0, size := 0, signal := false, agent := none }

/-- An error-mode GET. -/
def reqErr : Request :=
  { url := "http://h/a", method := "GET", headers := ⟨[]⟩, body := none,
    redirect := .error, follow := 20, counter := 0, compress := true,
    timeout := 0, size := 0, signal := false, agent := none }

theorem Headers.keyMatches_congr (n m : String) (e : String × String)
    (hnm : lowerKey n = lowerKey m) : Headers.keyMatches m e = Headers.keyMatches n e := by
  simp [Headers.keyMatches, hnm]

theorem Headers.filter_out_any_eq_false (n m : String) (hnm : lowerKey n = lowerKey m)
    (l : List (String × String)) :
    (l.filter (fun e => !(Headers.keyMatches n e))).any (Headers.keyMatches m) = false := by
  induction l with
  | nil => rfl
  | cons e t ih =>
    by_cases hk : Headers.keyMatches n e
    · simpa [List.filter_cons, hk] using ih
    · have hm2 : Headers.keyMatches m e = false := by
        rw [Headers.keyMatches_congr n m e hnm]
        exact Bool.eq_false_iff.mpr hk
      simpa [List.filter_cons, hk, hm2, List.any_cons] using ih

theorem Headers.has_delete (h : Headers) (n m : String) (hnm : lowerKey n = lowerKey m) :
    (h.delete n).has m = false :=
  Headers.filter_out_any_eq_false n m hnm h.entries

theorem Headers.filter_out_filter_eq_nil (n : String) (l : List (String × String)) :
    (l.filter (fun e => !(Headers.keyMatches n e))).filter (Headers.keyMatches n) = [] := by
  induction l with
  | nil => rfl
  | cons e t ih => by_cases hk : Headers.keyMatches n e <;> simp [List.filter_cons, hk, ih]

theorem Headers.get_set_self (h : Headers) (n v : String) : (h.set n v).get n = some v := by
  unfold Headers.set Headers.get
  rw [List.filter_append, Headers.filter_out_filter_eq_nil]
  simp [Headers.keyMatches, joinComma, List.intercalate]

theorem Headers.has_append_self (h : Headers) (n v : String) : (h.append n v).has n = true := by
  unfold Headers.append Headers.has
  simp [Headers.keyMatches]

theorem joinComma_single (v : String) : joinComma [v] = v := by
  simp [joinComma, List.intercalate]

theorem Headers.get_single_self (n v : String) : (Headers.mk [(n, v)]).get n = some v := by
  simp [Headers.get, Headers.keyMatches, joinComma_single]

theorem resolveUrl_absolute (base loc : String)
    (h : (breakOnSep schemeSep loc.data).isSome = true) : resolveUrl base loc = loc := by
  simp [resolveUrl, h]

theorem handle_chainReq_redir (u loc : String) (c m : Nat)
    (habs : (breakOnSep schemeSep loc.data).isSome = true) (hlt : c < m) :
    handleResponse (chainReq u c m) (redirRes loc) = Outcome.followUp loc
      { headers := ⟨[]⟩, follow := m, counter := c + 1, agent := none, compress := true,
        method := "GET", body := none, signal := false } := by
  have hc2 : ¬(m ≤ c) := Nat.not_le.mpr hlt
  simp [handleResponse, chainReq, redirRes, isRedirect, Headers.get_single_self,
    resolveUrl_absolute _ _ habs, hc2, getTotalBytes]

theorem handle_chainReq_ok (u : String) (c m : Nat) :
    handleResponse (chainReq u c m) okRes = Outcome.deliver (okDelivered u) := by
  simp [handleResponse, chainReq, okRes, isRedirect, deliverTerminal, okDelivered,
    selectDecoding, Headers.get]

theorem chain_success (loc : String) (habs : (breakOnSep schemeSep loc.data).isSome = true) :
    ∀ (N c m : Nat) (u : String), c + N ≤ m →
      runChain (chainReq u c m) (List.replicate N (redirRes loc) ++ [okRes]) =
        some (Outcome.deliver (okDelivered (if N = 0 then u else loc))) := by
  intro N
  induction N with
  | zero =>
    intro c m u _
    simp [runChain, handle_chainReq_ok]
  | succ N ih =>
    intro c m u hle
    have hlt : c < m := by omega
    have hstep := handle_chainReq_redir u loc c m habs hlt
    have hreq : requestOfFollow loc
        { headers := ⟨[]⟩, follow := m, counter := c + 1, agent := none, compress := true,
          method := "GET", body := none, signal := false } = chainReq loc (c + 1) m := rfl
    rw [List.replicate_succ, List.cons_append]
    simp only [runChain, hstep, hreq]
    have := ih (c + 1) m loc (by omega)
    simp only [this, ite_self]
    by_cases hN : N = 0 <;> simp [hN]

theorem chain_max (loc : String) (habs : (breakOnSep schemeSep loc.data).isSome = true) :
    ∀ (N c m : Nat) (u : String), c + N = m + 1 → c ≤ m →
      runChain (chainReq u c m) (List.replicate N (redirRes loc)) =
        some (Outcome.reject FetchErrKind.maxRedirect) := by
  intro N
  induction N with
  | zero => intro c m u h1 h2; omega
  | succ N ih =>
    intro c m u h1 h2
    rw [List.replicate_succ]
    by_cases hcm : c = m
    · have hmax : handleResponse (chainReq u c m) (redirRes loc) =
          Outcome.reject FetchErrKind.maxRedirect := by
        have hle : m ≤ c := le_of_eq hcm.symm
        simp [handleResponse, chainReq, redirRes, isRedirect, Headers.get_single_self,
          resolveUrl_absolute _ _ habs, hle]
      simp only [runChain, hmax]
    · have hlt : c < m := lt_of_le_of_ne h2 hcm
      simp only [runChain, handle_chainReq_redir u loc c m habs hlt]
      exact ih (c + 1) m loc (by omega) (by omega)

theorem timer_noFire_timedOut (t : Nat) :
    ∀ (evts : List HopEvent) (s : TimerState), HopEvent.timerFire ∉ evts →
      (evts.foldl (timerStep t) s).timedOut = s.timedOut := by
  intro evts
  induction evts with
  | nil => intro s _; rfl
  | cons e rest ih =>
    intro s hmem
    have he : e ≠ HopEvent.timerFire := fun h => hmem (h ▸ List.mem_cons_self e rest)
    have hrest : HopEvent.timerFire ∉ rest := fun h => hmem (List.mem_cons_of_mem e h)
    cases e with
    | socketAssigned =>
      by_cases ht : t ≠ 0 <;> simp [List.foldl_cons, timerStep, ht, ih _ hrest]
    | responseHeaders => simp [List.foldl_cons, timerStep, ih _ hrest]
    | timerFire => exact absurd rfl he

theorem timer_disarmed_stays (t : Nat) :
    ∀ (evts : List HopEvent), HopEvent.socketAssigned ∉ evts →
      evts.foldl (timerStep t) { armed := false, timedOut := false } =
        { armed := false, timedOut := false } := by
  intro evts
  induction evts with
  | nil => intro _; rfl
  | cons e rest ih =>
    intro hmem
    have he : e ≠ HopEvent.socketAssigned := fun h => hmem (h ▸ List.mem_cons_self e rest)
    have hrest : HopEvent.socketAssigned ∉ rest := fun h => hmem (List.mem_cons_of_mem e h)
    cases e with
    | socketAssigned => exact absurd rfl he
    | responseHeaders => simp [List.foldl_cons, timerStep]; exact ih hrest
    | timerFire => simp [List.foldl_cons, timerStep]; exact ih hrest

theorem STATUS_CODES_ne_some_empty (s : Nat) : STATUS_CODES s ≠ some "" := by
  unfold STATUS_CODES
  split_ifs <;> simp

theorem respStatus_ne_zero (o : RespOpts) : respStatus o ≠ 0 := by
  unfold respStatus
  cases o.status with
  | none => simp
  | some s => by_cases hs : s = 0 <;> simp [hs]

theorem respText_shape (o : RespOpts) (st : Nat) :
    respText o st = STATUS_CODES st ∨ ∃ s, respText o st = some s ∧ s ≠ "" := by
  unfold respText
  cases o.statusText with
  | none => exact Or.inl rfl
  | some s =>
    by_cases hs : s = ""
    · exact Or.inl (by simp [hs])
    · exact Or.inr ⟨s, by simp [hs], hs⟩

theorem respHeaders_has_ct (bb : BodyVal) (ct : String) (o : RespOpts)
    (h : extractContentType bb = some ct) :
    (respHeaders (some bb) o).has "Content-Type" = true := by
  unfold respHeaders
  by_cases h0 : (Headers.mk o.headers.entries).has "Content-Type" = false
  · simp [h0, h, Headers.has_append_self]
  · simp [h0]

theorem respText_eq_of_shape (o2 : RespOpts) (st : Nat)
    (hshape : o2.statusText = STATUS_CODES st ∨ ∃ s, o2.statusText = some s ∧ s ≠ "") :
    respText o2 st = o2.statusText := by
  unfold respText
  rcases hshape with hx | ⟨s, hx, hs⟩
  · cases ht : o2.statusText with
    | none =>
      rw [ht] at hx
      exact hx.symm
    | some s2 =>
      rw [ht] at hx
      by_cases h2 : s2 = ""
      · exfalso
        subst h2
        exact STATUS_CODES_ne_some_empty st hx.symm
      · simp [h2]
  · rw [hx]
    simp [hs]

theorem respHeaders_no_ct_change (body : Option BodyVal) (o2 : RespOpts)
    (hct : ∀ bb, body = some bb → ∀ ct, extractContentType bb = some ct →
      o2.headers.has "Content-Type" = true) :
    respHeaders body o2 = o2.headers := by
  cases body with
  | none => rfl
  | some bb =>
    unfold respHeaders
    cases hbc : extractContentType bb with
    | none =>
      by_cases h9 : (Headers.mk o2.headers.entries).has "Content-Type" = false <;>
        simp [h9, hbc]
    | some ct =>
      have h10 : o2.headers.has "Content-Type" = true := hct bb rfl ct hbc
      have h9 : ¬((Headers.mk o2.headers.entries).has "Content-Type" = false) := by
        show ¬(o2.headers.has "Content-Type" = false)
        rw [h10]
        simp
      simp [h9]

theorem clone_fields (r : Response) (h0 : r.status ≠ 0)
    (hshape : r.statusText = STATUS_CODES r.status ∨ ∃ s, r.statusText = some s ∧ s ≠ "")
    (hct : ∀ bb, r.body = some bb → ∀ ct, extractContentType bb = some ct →
      r.headers.has "Content-Type" = true) :
    r.clone.url = r.url ∧ r.clone.status = r.status ∧ r.clone.statusText = r.statusText ∧
      r.clone.headers = r.headers ∧ r.clone.timings = [] := by
  obtain ⟨url, status, stext, hdrs, tms, ra, body⟩ := r
  simp only at h0 hshape hct
  simp only [Response.clone, Response.make, cloneBody, Response.isOk]
  have hO : respStatus { url := url, status := some status, statusText := stext,
                         headers := hdrs, remoteAddress := none,
                         ok := some (decide (200 ≤ status ∧ status < 300)) } = status := by
    unfold respStatus
    simp [h0]
  refine ⟨trivial, hO, ?_, ?_, trivial⟩
  · rw [hO]
    exact respText_eq_of_shape _ _ hshape
  · exact respHeaders_no_ct_change _ _ (fun bb hb ct hc => hct bb hb ct hc)

/-- Claim C1: for every followed redirect (follow mode, redirect status,
resolved Location, within the hop bound, replayable body), a 303 status
— or a 301/302 status on a POST — rewrites the follow-up descriptor to
method GET with no body and no Content-Length header, and every other
combination keeps the original method and body. -/
theorem followUp_method_body (req : Request) (res : NodeRes) (loc : String)
    (hm : req.redirect = RedirectMode.follow)
    (hr : isRedirect res.statusCode = true)
    (hl : res.headers.get "Location" = some loc)
    (hc : req.counter < req.follow)
    (hs : ¬(res.statusCode ≠ 303 ∧ req.body.isSome = true ∧ getTotalBytes req = none)) :
    ∃ u o, handleResponse req res = Outcome.followUp u o ∧
      ((res.statusCode = 303 ∨
          ((res.statusCode = 301 ∨ res.statusCode = 302) ∧ req.method = "POST")) →
        o.method = "GET" ∧ o.body = none ∧ o.headers.has "Content-Length" = false) ∧
      (¬(res.statusCode = 303 ∨
          ((res.statusCode = 301 ∨ res.statusCode = 302) ∧ req.method = "POST")) →
        o.method = req.method ∧ o.body = req.body) := by
  have hc2 : ¬(req.follow ≤ req.counter) := Nat.not_le.mpr hc
  by_cases hcond : res.statusCode = 303 ∨
      ((res.statusCode = 301 ∨ res.statusCode = 302) ∧ req.method = "POST")
  · refine ⟨resolveUrl req.url loc,
      { headers := (Headers.mk req.headers.entries).delete "content-length"
        follow := req.follow, counter := req.counter + 1, agent := req.agent
        compress := req.compress, method := "GET", body := none
        signal := req.signal }, ?_, ?_, ?_⟩
    · simp [handleResponse, hm, hr, hl, hc2, hs, hcond]
    · intro _
      exact ⟨rfl, rfl, Headers.has_delete _ "content-length" "Content-Length" (by decide)⟩
    · intro hnot; exact absurd hcond hnot
  · refine ⟨resolveUrl req.url loc,
      { headers := Headers.mk req.headers.entries
        follow := req.follow, counter := req.counter + 1, agent := req.agent
        compress := req.compress, method := req.method, body := req.body
        signal := req.signal }, ?_, ?_, ?_⟩
    · simp [handleResponse, hm, hr, hl, hc2, hs, hcond]
    · intro hhc; exact absurd hhc hcond
    · intro _; exact ⟨rfl, rfl⟩

/-- Witness for C1: a 301 response to a POST with a three-byte body
yields a follow-up GET with no body and no Content-Length header. -/
theorem followUp_method_body_witness :
    ∃ u o, handleResponse reqPost resMoved = Outcome.followUp u o ∧
      ((resMoved.statusCode = 303 ∨
          ((resMoved.statusCode = 301 ∨ resMoved.statusCode = 302) ∧
            reqPost.method = "POST")) →
        o.method = "GET" ∧ o.body = none ∧ o.headers.has "Content-Length" = false) ∧
      (¬(resMoved.statusCode = 303 ∨
          ((resMoved.statusCode = 301 ∨ resMoved.statusCode = 302) ∧
            reqPost.method = "POST")) →
        o.method = reqPost.method ∧ o.body = reqPost.body) :=
  followUp_method_body reqPost resMoved "http://h/b" rfl rfl (by decide) (by decide)
    (by decide)

/-- Claim C2: in follow mode with a redirect status and a resolved
Location, a counter at or past the hop bound rejects with the
max-redirect error and issues no follow-up; otherwise the follow-up
descriptor's counter is the current counter plus one; consequently a
chain of N valid 302 responses resolves to the final destination for
N at most the bound, and N = bound + 1 rejects with max-redirect. -/
theorem counter_bound_and_chain (req : Request) (res : NodeRes) (loc : String)
    (hm : req.redirect = RedirectMode.follow)
    (hr : isRedirect res.statusCode = true)
    (hl : res.headers.get "Location" = some loc) :
    (req.follow ≤ req.counter →
      handleResponse req res = Outcome.reject FetchErrKind.maxRedirect) ∧
    (∀ u o, handleResponse req res = Outcome.followUp u o → o.counter = req.counter + 1) ∧
    (∀ (N m : Nat) (u0 l : String), (breakOnSep schemeSep l.data).isSome = true →
      (N ≤ m → runChain (chainReq u0 0 m) (List.replicate N (redirRes l) ++ [okRes]) =
        some (Outcome.deliver (okDelivered (if N = 0 then u0 else l)))) ∧
      (N = m + 1 → runChain (chainReq u0 0 m) (List.replicate N (redirRes l)) =
        some (Outcome.reject FetchErrKind.maxRedirect))) := by
  refine ⟨?_, ?_, ?_⟩
  · intro hcc
    simp [handleResponse, hm, hr, hl, hcc]
  · intro u o hfo
    by_cases hcc : req.follow ≤ req.counter
    · rw [show handleResponse req res = Outcome.reject FetchErrKind.maxRedirect from by
        simp [handleResponse, hm, hr, hl, hcc]] at hfo
      exact absurd hfo (by simp)
    · by_cases hs : res.statusCode ≠ 303 ∧ req.body.isSome = true ∧ getTotalBytes req = none
      · rw [show handleResponse req res = Outcome.reject FetchErrKind.unsupportedRedirect from by
          simp [handleResponse, hm, hr, hl, hcc, hs]] at hfo
        exact absurd hfo (by simp)
      · by_cases hcond : res.statusCode = 303 ∨
            ((res.statusCode = 301 ∨ res.statusCode = 302) ∧ req.method = "POST")
        · rw [show handleResponse req res = Outcome.followUp (resolveUrl req.url loc)
              { headers := (Headers.mk req.headers.entries).delete "content-length",
                follow := req.follow, counter := req.counter + 1, agent := req.agent,
                compress := req.compress, method := "GET", body := none,
                signal := req.signal } from by
            simp [handleResponse, hm, hr, hl, hcc, hs, hcond]] at hfo
          rw [Outcome.followUp.injEq] at hfo
          rcases hfo with ⟨-, ho⟩
          rw [← ho]
        · rw [show handleResponse req res = Outcome.followUp (resolveUrl req.url loc)
              { headers := Headers.mk req.headers.entries, follow := req.follow,
                counter := req.counter + 1, agent := req.agent, compress := req.compress,
                method := req.method, body := req.body, signal := req.signal } from by
            simp [handleResponse, hm, hr, hl, hcc, hs, hcond]] at hfo
          rw [Outcome.followUp.injEq] at hfo
          rcases hfo with ⟨-, ho⟩
          rw [← ho]
  · intro N m u0 l habs
    refine ⟨fun hNm => chain_success l habs N 0 m u0 (by omega),
            fun hNm => chain_max l habs N 0 m u0 (by omega) (by omega)⟩

/-- Witness for C2: with counter 3 and bound 3, a further valid 302 is
rejected with the max-redirect error. -/
theorem counter_bound_and_chain_witness :
    handleResponse (chainReq "http://h/a" 3 3) (redirRes "http://h/b") =
      Outcome.reject FetchErrKind.maxRedirect :=
  (counter_bound_and_chain (chainReq "http://h/a" 3 3) (redirRes "http://h/b")
    "http://h/b" rfl (by decide) (by decide)).1 (by decide)

/-- Claim C3: when the cancellation signal fires in a state the abort
callback can observe (the future pending, or settled with a response
body handed out — a handed-out body implies a settled future, spec
section 3 invariant), a pending future is settled with the AbortError
carrying the timings snapshot, an already-settled one with a live body
stream gets the error on that stream instead, and exactly one of the
two delivery paths fires, never both. -/
theorem abort_exactly_one (s : AbortState)
    (hinv : s.responseBodySet = true → s.pending = false)
    (hlive : s.pending = true ∨ s.responseBodySet = true) :
    (s.pending = true →
      AbortAction.settleAbortError s.timings ∈ abortRun s ∧
      AbortAction.emitStreamError s.timings ∉ abortRun s) ∧
    (s.pending = false → s.responseBodySet = true →
      AbortAction.emitStreamError s.timings ∈ abortRun s ∧
      AbortAction.settleAbortError s.timings ∉ abortRun s) ∧
    (abortRun s).count (AbortAction.settleAbortError s.timings) +
      (abortRun s).count (AbortAction.emitStreamError s.timings) = 1 := by
  obtain ⟨p, rb, rs, t⟩ := s
  cases p <;> cases rb <;> cases rs <;>
    simp_all [abortRun, List.count_cons]

/-- Witness for C3: a pending dispatch with no body handed out delivers
the abort through the future exactly once. -/
theorem abort_exactly_one_witness :
    (abortRun ⟨true, false, false, []⟩).count (AbortAction.settleAbortError []) +
      (abortRun ⟨true, false, false, []⟩).count (AbortAction.emitStreamError []) = 1 :=
  (abort_exactly_one ⟨true, false, false, []⟩ (by decide) (Or.inl rfl)).2.2

/-- Counterexample for C4: a follow-mode request with timeout 1000 is
redirected; the follow-up descriptor the handler builds does not carry
that timeout — the rebuilt request has timeout 0, so no timer is armed
on the next hop and the timeout protection does not apply to it. -/
theorem timeout_dropped_on_follow :
    reqT.timeout = 1000 ∧
    handleResponse reqT resT = Outcome.followUp "http://h/b" followT ∧
    (requestOfFollow "http://h/b" followT).timeout = 0 ∧
    (runTimer (requestOfFollow "http://h/b" followT).timeout [HopEvent.socketAssigned]).armed
      = false := by
  refine ⟨rfl, by decide, rfl, rfl⟩

/-- Claim C4 (amended): a dispatch whose descriptor has a nonzero
timeout arms a timer on socket assignment; the armed timer firing
raises the timeout rejection; response headers clear the timer, so a
response arriving before the deadline never raises TimeoutError even if
a stale fire follows; but the follow-up descriptor of a followed
redirect is rebuilt without the original timeout (timeout 0 =
disabled), so the protection covers only hops whose own descriptor
carries a positive timeout, not every hop of the chain. -/
theorem timeout_per_hop_only :
    (∀ t : Nat, t ≠ 0 →
      runTimer t [HopEvent.socketAssigned] = { armed := true, timedOut := false }) ∧
    (∀ t : Nat, t ≠ 0 →
      (runTimer t [HopEvent.socketAssigned, HopEvent.timerFire]).timedOut = true) ∧
    (∀ (t : Nat) (pre post : List HopEvent),
      HopEvent.timerFire ∉ pre → HopEvent.socketAssigned ∉ post →
      (runTimer t (pre ++ HopEvent.responseHeaders :: post)).timedOut = false) ∧
    (∀ (u : String) (o : FollowOpts), (requestOfFollow u o).timeout = 0) := by
  refine ⟨?_, ?_, ?_, ?_⟩
  · intro t ht; simp [runTimer, timerStep, ht]
  · intro t ht; simp [runTimer, timerStep, ht]
  · intro t pre post hpre hpost
    rw [runTimer, List.foldl_append, List.foldl_cons]
    have h1 : ((pre.foldl (timerStep t) { armed := false, timedOut := false })).timedOut = false :=
      timer_noFire_timedOut t pre _ hpre
    have h2 : timerStep t (pre.foldl (timerStep t) { armed := false, timedOut := false })
        HopEvent.responseHeaders = { armed := false, timedOut := false } := by
      simp [timerStep, h1]
    rw [h2, timer_disarmed_stays t post hpost]
  · intro u o; rfl

/-- Witness for C4: a hop whose headers arrive before any timer fire
never raises the timeout, even with a stale fire afterwards. -/
theorem timeout_per_hop_only_witness :
    (runTimer 5 ([HopEvent.socketAssigned] ++
      HopEvent.responseHeaders :: [HopEvent.timerFire])).timedOut = false :=
  timeout_per_hop_only.2.2.1 5 [HopEvent.socketAssigned] [HopEvent.timerFire]
    (by decide) (by decide)

/-- Claim C5: in manual mode with a redirect status and a Location
header, the delivered result's Location header is the absolute
resolution of that value against the request URL and no follow-up is
issued; when the resolved value cannot be stored in the header
container, that failure is surfaced as its own rejection. -/
theorem manual_rewrites (req : Request) (res : NodeRes) (loc : String)
    (hm : req.redirect = RedirectMode.manual)
    (hr : isRedirect res.statusCode = true)
    (hl : res.headers.get "Location" = some loc) :
    (validHeaderValue (resolveUrl req.url loc) = true →
      ∃ d, handleResponse req res = Outcome.deliver d ∧
        d.headers.get "Location" = some (resolveUrl req.url loc) ∧
        d.url = req.url ∧ d.status = res.statusCode) ∧
    (validHeaderValue (resolveUrl req.url loc) = false →
      handleResponse req res = Outcome.reject FetchErrKind.headerCorruption) := by
  constructor
  · intro hv
    refine ⟨{ url := req.url, status := res.statusCode, statusText := res.statusMessage,
              headers := res.headers.set "Location" (resolveUrl req.url loc),
              decoding := selectDecoding req.compress req.method res.statusCode
                ((res.headers.set "Location" (resolveUrl req.url loc)).get "Content-Encoding") },
        ?_, Headers.get_set_self _ _ _, rfl, rfl⟩
    simp [handleResponse, hm, hr, hl, hv, deliverTerminal]
  · intro hv
    simp [handleResponse, hm, hr, hl, hv]

/-- Witness for C5: manual mode, status 302, Location `/x` at base
`http://h/a` delivers a result whose Location is `http://h/x`. -/
theorem manual_rewrites_witness :
    ∃ d, handleResponse reqMan resMan = Outcome.deliver d ∧
      d.headers.get "Location" = some "http://h/x" ∧
      d.url = "http://h/a" ∧ d.status = 302 :=
  (manual_rewrites reqMan resMan "/x" rfl rfl (by decide)).1 (by decide)

/-- Claim C6: the decoding pipeline passes the body through unchanged
exactly when the compress flag is off, the method is HEAD, the
Content-Encoding header is absent, the status is 204 or 304, or the
coding value is none of gzip, x-gzip, deflate, x-deflate (unrecognized
codings are identity, not an error). -/
theorem identity_iff (compress : Bool) (method : String) (sc : Nat) (codings : Option String) :
    selectDecoding compress method sc codings = Decoding.identity ↔
      (compress = false ∨ method = "HEAD" ∨ codings = none ∨ sc = 204 ∨ sc = 304 ∨
        ∀ c, codings = some c →
          (c ≠ "gzip" ∧ c ≠ "x-gzip" ∧ c ≠ "deflate" ∧ c ≠ "x-deflate")) := by
  by_cases h1 : compress = false ∨ method = "HEAD" ∨ codings = none ∨ sc = 204 ∨ sc = 304
  · simp only [selectDecoding, h1, if_true]
    constructor
    · intro _; tauto
    · intro _; trivial
  · cases codings with
    | none => exact absurd (by tauto) h1
    | some c =>
      by_cases hg : c = "gzip" ∨ c = "x-gzip"
      · simp only [selectDecoding, h1, if_false, hg, if_true]
        constructor
        · intro h; exact absurd h (by simp)
        · intro h
          rcases h with h | h | h | h | h | h
          · exact absurd (Or.inl h) h1
          · exact absurd (Or.inr (Or.inl h)) h1
          · exact absurd h (by simp)
          · exact absurd (Or.inr (Or.inr (Or.inr (Or.inl h)))) h1
          · exact absurd (Or.inr (Or.inr (Or.inr (Or.inr h)))) h1
          · rcases (h c rfl) with ⟨h2, h3, _, _⟩
            rcases hg with hg | hg
            · exact absurd hg h2
            · exact absurd hg h3
      · by_cases hd : c = "deflate" ∨ c = "x-deflate"
        · simp only [selectDecoding, h1, if_false, hg, hd, if_true]
          constructor
          · intro h; exact absurd h (by simp)
          · intro h
            rcases h with h | h | h | h | h | h
            · exact absurd (Or.inl h) h1
            · exact absurd (Or.inr (Or.inl h)) h1
            · exact absurd h (by simp)
            · exact absurd (Or.inr (Or.inr (Or.inr (Or.inl h)))) h1
            · exact absurd (Or.inr (Or.inr (Or.inr (Or.inr h)))) h1
            · rcases (h c rfl) with ⟨_, _, h4, h5⟩
              rcases hd with hd | hd
              · exact absurd hd h4
              · exact absurd hd h5
        · simp only [selectDecoding, h1, if_false, hg, hd]
          constructor
          · intro _
            refine Or.inr (Or.inr (Or.inr (Or.inr (Or.inr ?_))))
            intro c2 hc2
            cases hc2
            push_neg at hg hd
            exact ⟨hg.1, hg.2, hd.1, hd.2⟩
          · intro _; trivial

/-- Witness for C6: the unrecognized coding `br` on a compressed GET 200
response is passed through as identity. -/
theorem identity_iff_witness :
    selectDecoding true "GET" 200 (some "br") = Decoding.identity :=
  (identity_iff true "GET" 200 (some "br")).mpr
    (Or.inr (Or.inr (Or.inr (Or.inr (Or.inr (by
      intro c hc
      cases hc
      decide))))))

/-- Claim C7: when the pipeline defers a deflate decision, the coding
was deflate or x-deflate, and the once-per-response choice taken from
the first chunk depends only on that chunk's first byte: a low nibble
of 0x08 selects zlib inflate, anything else raw inflate. -/
theorem deflate_first_byte (compress : Bool) (method : String) (sc : Nat)
    (codings : Option String)
    (h : selectDecoding compress method sc codings = Decoding.deflatePending) :
    (codings = some "deflate" ∨ codings = some "x-deflate") ∧
    ∀ (b : Nat) (rest rest2 : List Nat),
      deflateDecision (b :: rest) = deflateDecision (b :: rest2) ∧
      (deflateDecision (b :: rest) = Decoding.inflate ↔ b &&& 0x0f = 0x08) ∧
      (deflateDecision (b :: rest) = Decoding.inflate ∨
        deflateDecision (b :: rest) = Decoding.inflateRaw) := by
  constructor
  · cases codings with
    | none => simp [selectDecoding] at h
    | some c =>
      by_cases hdc : c = "deflate" ∨ c = "x-deflate"
      · rcases hdc with h3 | h3
        · exact Or.inl (by rw [h3])
        · exact Or.inr (by rw [h3])
      · exfalso
        unfold selectDecoding at h
        split_ifs at h <;> simp_all
        split_ifs at h
  · intro b rest rest2
    refine ⟨rfl, ?_, ?_⟩
    · by_cases hb : b &&& 0x0f = 0x08 <;> simp [deflateDecision, hb]
    · by_cases hb : b &&& 0x0f = 0x08 <;> simp [deflateDecision, hb]

/-- Witness for C7: the zlib header byte 0x78 selects zlib inflate from
the first chunk regardless of the rest of the chunk. -/
theorem deflate_first_byte_witness :
    deflateDecision (120 :: [156]) = deflateDecision (120 :: []) ∧
      (deflateDecision (120 :: [156]) = Decoding.inflate ↔ 120 &&& 0x0f = 0x08) ∧
      (deflateDecision (120 :: [156]) = Decoding.inflate ∨
        deflateDecision (120 :: [156]) = Decoding.inflateRaw) :=
  (deflate_first_byte true "GET" 200 (some "deflate") (by decide)).2 120 [156] []

/-- Claim C8: within the hop bound of a followed redirect, the dispatch
rejects with the unsupported-redirect error exactly when the status is
not 303, a body is present, and its total byte count is unknown
(non-replayable stream); a 303, an absent body or a known size never
raises it. -/
theorem unsupported_iff (req : Request) (res : NodeRes) (loc : String)
    (hm : req.redirect = RedirectMode.follow)
    (hr : isRedirect res.statusCode = true)
    (hl : res.headers.get "Location" = some loc)
    (hc : req.counter < req.follow) :
    handleResponse req res = Outcome.reject FetchErrKind.unsupportedRedirect ↔
      (res.statusCode ≠ 303 ∧ req.body.isSome = true ∧ getTotalBytes req = none) := by
  have hc2 : ¬(req.follow ≤ req.counter) := Nat.not_le.mpr hc
  by_cases hs : res.statusCode ≠ 303 ∧ req.body.isSome = true ∧ getTotalBytes req = none
  · simp [handleResponse, hm, hr, hl, hc2, hs]
  · by_cases hcond : res.statusCode = 303 ∨
        ((res.statusCode = 301 ∨ res.statusCode = 302) ∧ req.method = "POST") <;>
      simp [handleResponse, hm, hr, hl, hc2, hs, hcond]

/-- Witness for C8: a 302 on a POST whose body is a stream of unknown
length rejects with the unsupported-redirect error. -/
theorem unsupported_iff_witness :
    handleResponse reqStream (redirRes "http://h/b") =
      Outcome.reject FetchErrKind.unsupportedRedirect :=
  (unsupported_iff reqStream (redirRes "http://h/b") "http://h/b" rfl (by decide)
    (by decide) (by decide)).mpr (by decide)

/-- Claim C9: in error mode, any redirect status rejects immediately
with the no-redirect policy error, regardless of the Location header,
and no follow-up is issued. -/
theorem errorMode_rejects (req : Request) (res : NodeRes)
    (hm : req.redirect = RedirectMode.error) (hr : isRedirect res.statusCode = true) :
    handleResponse req res = Outcome.reject FetchErrKind.noRedirect := by
  simp [handleResponse, hm, hr]

/-- Witness for C9: an error-mode GET receiving a 302 with a relative
Location rejects with the no-redirect policy error. -/
theorem errorMode_rejects_witness :
    handleResponse reqErr (redirRes "/x") = Outcome.reject FetchErrKind.noRedirect :=
  errorMode_rejects reqErr (redirRes "/x") rfl (by decide)

/-- Claim C10: cloning a constructed Response keeps its url, status,
status text and headers, but the clone's timings record is the empty
record whatever timings the original carried, because clone does not
pass the timings through. -/
theorem clone_drops_timings (b : Option BodyVal) (o : RespOpts) (t : Timings) :
    ((Response.make b o t).clone).url = (Response.make b o t).url ∧
    ((Response.make b o t).clone).status = (Response.make b o t).status ∧
    ((Response.make b o t).clone).statusText = (Response.make b o t).statusText ∧
    ((Response.make b o t).clone).headers = (Response.make b o t).headers ∧
    ((Response.make b o t).clone).timings = [] := by
  refine clone_fields (Response.make b o t) (respStatus_ne_zero o) (respText_shape o _) ?_
  intro bb hb ct hc
  have hbb : b = some bb := hb
  subst hbb
  exact respHeaders_has_ct bb ct o hc

/-- Witness for C10: cloning a Response constructed with a non-empty
timings record yields a clone whose timings record is empty. -/
theorem clone_drops_timings_witness :
    ((Response.make none { status := some 200 } [("totalTime", "5.00")]).clone).timings = [] :=
  (clone_drops_timings none { status := some 200 } [("totalTime", "5.00")]).2.2.2.2
